import Mathlib

/-!
Shallow embedding of the help-menu cog in `src/cogs/help.py`.

The repository renders a browsable help UI for a chat bot: a root panel with a
category dropdown (`MyHelp.send_bot_help` plus `DropdownView`/`Dropdown`),
detail panels for a single command (`MyHelp.send_command_help`), for a group or
a category via a shared renderer (`MyHelp.send_help_embed`, `send_group_help`,
`send_cog_help`), and an interaction callback (`Dropdown.callback`) that either
re-renders a category via the module-level `get_help` or closes the menu.

Python strings that may be absent are modelled as `Option String`; the Python
truthiness test `x or default` (falsy for both `None` and `""`) is `pyOr`, and
`str(x)` applied to a possibly-`None` value (as discord.py's `Embed.add_field`
does) is `pyStr`, rendering `None` as the literal string "None".  discord.py
exceptions are modelled by `PyErr`, distinguishing `commands.CommandError`
(the only class `contextlib.suppress` catches in `send_command_help`) from any
other exception.  Cooldown windows (`float` in the source) are modelled as
rationals; the Python format `f"{x:.0f}"` rounds to the nearest integer with
ties to even, which `roundHalfEven` mirrors.
-/

namespace HelpCog

/-- Python `x or default` for an optional string: `None` and `""` are falsy. -/
def pyOr : Option String → String → String
  | none, d => d
  | some s, d => if s = "" then d else s

/-- Python `x or default` for a plain string: `""` is falsy. -/
def pyOrS (s d : String) : String :=
  if s = "" then d else s

/-- Python `str(x)` on a possibly-None string, as discord.py `add_field` applies
to field values: `None` renders as the literal "None". -/
def pyStr : Option String → String
  | none => "None"
  | some s => s

/-- A command cooldown policy: `commands.Cooldown` with `rate : int` and
`per : float` (window in seconds), modelled with a rational window. -/
structure Cooldown where
  rate : Nat
  per : ℚ
deriving DecidableEq

/-- Exceptions relevant to the embedding: `commands.CommandError` versus any
other Python exception. -/
inductive PyErr
  | commandError
  | otherError
deriving DecidableEq

/-- A command as read from the host registry: name, invocation signature (the
result of `get_command_signature`), short help (`brief`), long help body
(`help`), hidden flag, owning cog name (`command.cog`), and cooldown policy
(`command._buckets._cooldown`). -/
structure Cmd where
  name : String
  signature : String
  brief : Option String
  help : Option String
  hidden : Bool
  cogName : Option String
  cooldown : Option Cooldown
deriving DecidableEq

/-- A cog (category) as read from the host registry: `qualified_name`,
`description` (cleaned docstring used by the dispatcher paths), raw `__doc__`
(used by `get_help`), and `get_commands()`. -/
structure Cog where
  qualifiedName : String
  description : Option String
  doc : Option String
  commands : List Cmd
deriving DecidableEq

/-- A command group: a command owning child commands (`group.help`,
`group.commands`). -/
structure Group where
  signature : String
  help : Option String
  commands : List Cmd
deriving DecidableEq

/-- One name/value field of a message embed. -/
structure EmbedField where
  name : String
  value : String
deriving DecidableEq

/-- A message embed (a Panel): title, description, ordered fields, footer,
author line, and whether a timestamp was set. -/
structure Embed where
  title : Option String := none
  description : Option String := none
  fields : List EmbedField := []
  footer : Option String := none
  author : Option String := none
  hasTimestamp : Bool := false
deriving DecidableEq

/-- The standing footer text set by `HelpEmbed.__init__`. -/
def standingFooter : String :=
  "Use help [command] or help [category] for more information | <> is required | [] is optional"

/-- The `HelpEmbed` constructor: an embed with the given title and description,
a timestamp, and the standing footer. -/
def mkHelpEmbed (title description : Option String) : Embed :=
  { title := title
    description := description
    fields := []
    footer := some standingFooter
    author := none
    hasTimestamp := true }

/-- `Embed.add_field`: appends one field. -/
def addField (e : Embed) (n v : String) : Embed :=
  { e with fields := e.fields ++ [EmbedField.mk n v] }

/-- An entry of the dropdown: `discord.SelectOption(label=..., value=...,
description=...)`. -/
structure SelectOption where
  label : String
  value : String
  description : Option String
deriving DecidableEq

/-- Truncation of a non-negative rational to a whole number (what the spec's
"truncated to a whole number of seconds" denotes for a cooldown window). -/
def ratFloor (q : ℚ) : ℤ :=
  ⌊q⌋

/-- Rounding to the nearest integer with ties to even, as Python `f"{x:.0f}"`
does. -/
def roundHalfEven (q : ℚ) : ℤ :=
  let f := ratFloor q
  let r : ℚ := q - (f : ℚ)
  if r < (1 : ℚ)/2 then f
  else if (1 : ℚ)/2 < r then f + 1
  else if f % 2 = 0 then f else f + 1

/-- The value of the "Cooldown" field rendered by `send_command_help`. -/
def fmtCooldown (cd : Cooldown) : String :=
  toString cd.rate ++ (" per ") ++ toString (roundHalfEven cd.per) ++ (" seconds")

/-- The embed built by `send_command_help` once the `can_run` check has been
resolved to a "Yes"/"No" string: title = signature, description = brief with
the "No help found..." default, then a "Category" field when the command has a
cog, the "Usable" field, and a "Cooldown" field when a cooldown is attached. -/
def commandEmbed (c : Cmd) (usableValue : String) : Embed :=
  let e0 := mkHelpEmbed (some c.signature) (some (pyOr c.brief ("No help found...")))
  let e1 := match c.cogName with
    | some n => addField e0 ("Category") n
    | none => e0
  let e2 := addField e1 ("Usable") usableValue
  match c.cooldown with
  | some cd => addField e2 ("Cooldown") (fmtCooldown cd)
  | none => e2

/-- `MyHelp.send_command_help`, parametrised by the outcome of the host
predicate `command.can_run(ctx)`.  The source initialises `can_run = "No"` and
runs the predicate inside `contextlib.suppress(commands.CommandError)`: a
`CommandError` is swallowed leaving "No", while any other exception escapes the
`suppress` block and propagates, so no embed is produced. -/
def sendCommandHelp (c : Cmd) (canRun : Except PyErr Bool) : Except PyErr Embed :=
  match canRun with
  | Except.ok true => Except.ok (commandEmbed c ("Yes"))
  | Except.ok false => Except.ok (commandEmbed c ("No"))
  | Except.error PyErr.commandError => Except.ok (commandEmbed c ("No"))
  | Except.error PyErr.otherError => Except.error PyErr.otherError

/-- `MyHelp.send_help_embed`, parametrised by the host permission filter
`filter_commands` (`filt`): title as given, description with the
"No help found..." default, one field per filtered command valued by its short
help with the same default. -/
def sendHelpEmbed (title : String) (description : Option String) (cmds : List Cmd)
    (filt : List Cmd → List Cmd) : Embed :=
  let e0 := mkHelpEmbed (some title) (some (pyOr description ("No help found...")))
  (filt cmds).foldl
    (fun e c => addField e c.signature (pyOr c.brief ("No help found..."))) e0

/-- `MyHelp.send_group_help`: delegates to `send_help_embed`. -/
def sendGroupHelp (g : Group) (filt : List Cmd → List Cmd) : Embed :=
  sendHelpEmbed g.signature g.help g.commands filt

/-- `MyHelp.send_cog_help`: title is `qualified_name or "No"` followed by
" Category", then delegates to `send_help_embed`. -/
def sendCogHelp (cog : Cog) (filt : List Cmd → List Cmd) : Embed :=
  sendHelpEmbed (pyOrS cog.qualifiedName ("No") ++ (" Category")) cog.description
    cog.commands filt

/-- The display name used for a mapping entry in `send_bot_help`:
`cog.qualified_name`, or "No Category" for the `None` key. -/
def entryName : Option Cog → String
  | some cog => cog.qualifiedName
  | none => "No Category"

/-- The description computed (and then discarded) for a mapping entry in
`send_bot_help`: `cog.description or "No description"`, or
"Commands with no category" for the `None` key. -/
def entryDescription : Option Cog → String
  | some cog => pyOr cog.description ("No description")
  | none => "Commands with no category"

/-- The option appended for a visible category:
`SelectOption(label=name, value=name)` with no description argument. -/
def categoryOption (c : Option Cog) : SelectOption :=
  SelectOption.mk (entryName c) (entryName c) none

/-- The terminal `SelectOption(label="Close", value="Close")`. -/
def closeOption : SelectOption :=
  SelectOption.mk ("Close") ("Close") none

/-- The loop body of `send_bot_help` over `mapping.items()`: for each entry
whose `filter_commands` result is non-empty (the walrus test), append its
`SelectOption`. -/
def buildOptions : List (Option Cog × List Cmd) → (List Cmd → List Cmd) → List SelectOption
  | [], _ => []
  | p :: rest, filt =>
      (if (filt p.2).isEmpty then [] else [categoryOption p.1]) ++ buildOptions rest filt

/-- Result of `MyHelp.send_bot_help`: the options list snapshot at the moment
`DropdownView(myoptions, ctx)` is constructed, the contents of that same list
when the message is finally sent, and the root embed.  discord.py's
`Select.__init__` stores the passed options list by reference without copying,
so the selector attached to the sent message offers `finalOptions` — the list
as it stands after the loop and the "Close" append — even though the view was
constructed while the list was still empty. -/
structure BotHelpResult where
  viewOptionsAtConstruction : List SelectOption
  finalOptions : List SelectOption
  embed : Embed
deriving DecidableEq

/-- `MyHelp.send_bot_help`, line by line: `myoptions = []`, then
`view = DropdownView(myoptions, ctx)`, then the loop appending one option per
visible category, then the "Close" append, then the send. -/
def sendBotHelp (botDisplayName : String) (mapping : List (Option Cog × List Cmd))
    (filt : List Cmd → List Cmd) : BotHelpResult :=
  let myoptions0 : List SelectOption := []
  let viewSnapshot := myoptions0
  let myoptions1 := myoptions0 ++ buildOptions mapping filt
  let myoptions2 := myoptions1 ++ [closeOption]
  { viewOptionsAtConstruction := viewSnapshot
    finalOptions := myoptions2
    embed := mkHelpEmbed (some (botDisplayName ++ (" Help"))) none }

/-- The labels offered by the selector sent with the root panel. -/
def offeredLabels (r : BotHelpResult) : List String :=
  r.finalOptions.map SelectOption.label

/-- The embed built by the module-level `get_help` for a cog selected from the
dropdown: title `f"{name} - Commands"`, description the raw `__doc__`, author
"Help System", no footer, and one field per non-hidden command valued by
`str(command.help)`. -/
def getHelpEmbed (cogName : String) (cog : Cog) : Embed :=
  { title := some (cogName ++ (" - Commands"))
    description := cog.doc
    fields := (cog.commands.filter (fun c => !c.hidden)).map
      (fun c => EmbedField.mk (("`") ++ c.name ++ ("`")) (pyStr c.help))
    footer := none
    author := some ("Help System")
    hasTimestamp := false }

/-- What `edit_message` does to the attached view: `get_help` omits the `view`
argument (components left unchanged), the Close branch passes `view=None`
(components removed). -/
inductive ViewArg
  | unchanged
  | remove
deriving DecidableEq

/-- An observable message operation of the UI code: an in-place edit of the
existing message, or sending a new message. -/
inductive Action
  | edit (embed : Embed) (view : ViewArg)
  | send (embed : Embed)
deriving DecidableEq

/-- Whether an action is an in-place edit. -/
def isEditAction : Action → Bool
  | Action.edit _ _ => true
  | Action.send _ => false

/-- First-match lookup of a cog by name, as `Dropdown.callback`'s
`for cog in self.bot.cogs: if label == cog` loop combined with
`self.bot.cogs[CogToPassAlong]` performs. -/
def lookupCog : List (String × Cog) → String → Option Cog
  | [], _ => none
  | (n, c) :: rest, label => if label = n then some c else lookupCog rest label

/-- The minimal embed built by the Close branch of `Dropdown.callback`:
`f"{bot.user.name} Help"` title, empty description, standing footer, no
timestamp. -/
def closeEmbed (botUserName : String) : Embed :=
  { title := some (botUserName ++ (" Help"))
    description := some ("")
    fields := []
    footer := some standingFooter
    author := none
    hasTimestamp := false }

/-- `Dropdown.callback`: if the selected label names a registered cog, edit the
message to `get_help`'s embed (the loop returns, so the Close test is never
reached); otherwise, if the label is "Close", edit to the minimal close embed
with the view removed; otherwise do nothing. -/
def dropdownCallback (cogs : List (String × Cog)) (botUserName : String)
    (label : String) : List Action :=
  match lookupCog cogs label with
  | some cog => [Action.edit (getHelpEmbed label cog) ViewArg.unchanged]
  | none =>
      if label = ("Close" : String) then
        [Action.edit (closeEmbed botUserName) ViewArg.remove]
      else []

/-- The value of the first field named `n` in an embed, when present. -/
def fieldValue (e : Embed) (n : String) : Option String :=
  (e.fields.find? (fun f => f.name = n)).map (fun f => f.value)

/-- The value of the first field named `n` in the embed of a fallible render,
when the render succeeded and the field is present. -/
def fieldValueOf (r : Except PyErr Embed) (n : String) : Option String :=
  match r with
  | Except.ok e => fieldValue e n
  | Except.error _ => none

/-! Concrete sample data used by witnesses and counterexamples. -/

/-- A visible command with help texts, belonging to the "Fun" cog. -/
def cmdRoll : Cmd :=
  { name := "roll"
    signature := "roll <dice>"
    brief := some ("Roll a dice")
    help := some ("Rolls a dice for you")
    hidden := false
    cogName := some ("Fun")
    cooldown := none }

/-- A hidden command belonging to the "Admin" cog. -/
def cmdBan : Cmd :=
  { name := "ban"
    signature := "ban <member>"
    brief := some ("Ban a member")
    help := some ("Bans a member from the guild")
    hidden := true
    cogName := some ("Admin")
    cooldown := none }

/-- A visible command with neither short nor long help text. -/
def cmdMystery : Cmd :=
  { name := "mystery"
    signature := "mystery"
    brief := none
    help := none
    hidden := false
    cogName := some ("Mystery")
    cooldown := none }

/-- A command with a cooldown of rate 1 per 5.7 seconds. -/
def cmdDice : Cmd :=
  { name := "dice"
    signature := "dice"
    brief := some ("Dice")
    help := none
    hidden := false
    cogName := none
    cooldown := some { rate := 1, per := (57 : ℚ)/10 } }

/-- The "Fun" cog holding `cmdRoll`. -/
def cogFun : Cog :=
  { qualifiedName := "Fun"
    description := some ("Fun stuff")
    doc := some ("Fun commands for everyone")
    commands := [cmdRoll] }

/-- The "Admin" cog holding only the hidden `cmdBan`. -/
def cogAdmin : Cog :=
  { qualifiedName := "Admin"
    description := some ("Admin stuff")
    doc := some ("Admin commands")
    commands := [cmdBan] }

/-- A cog holding only `cmdMystery`, with no docstring. -/
def cogMystery : Cog :=
  { qualifiedName := "Mystery"
    description := none
    doc := none
    commands := [cmdMystery] }

/-- A sample mapping: the "Fun" cog with a visible command and the "Admin" cog
with only a hidden command. -/
def mappingFC : List (Option Cog × List Cmd) :=
  [(some cogFun, [cmdRoll]), (some cogAdmin, [cmdBan])]

/-- A sample permission filter keeping exactly the non-hidden commands. -/
def filtVisible : List Cmd → List Cmd :=
  fun l => l.filter (fun c => !c.hidden)

end HelpCog

namespace HelpCog

/-! Helper lemmas shared by the claim theorems. -/

/-- The `send_bot_help` loop appends exactly one option per mapping entry whose
filtered command list is non-empty, in mapping order. -/
theorem buildOptions_eq_filter_map (mapping : List (Option Cog × List Cmd))
    (filt : List Cmd → List Cmd) :
    buildOptions mapping filt
      = (mapping.filter (fun p => !(filt p.2).isEmpty)).map
          (fun p => categoryOption p.1) := by
  induction mapping with
  | nil => rfl
  | cons p rest ih =>
      simp only [buildOptions, List.filter_cons]
      cases h : (filt p.2).isEmpty with
      | true => simp [h, ih]
      | false => simp [h, ih]

/-- Appending a single element makes it the last element. -/
theorem getLast_append_single {α : Type} (l : List α) (a : α) :
    (l ++ [a]).getLast? = some a :=
  List.getLast?_append_cons l a []

/-- Folding `addField` over a command list appends one field per command. -/
theorem foldl_addField_fields (l : List Cmd) (e : Embed) :
    (l.foldl (fun acc c => addField acc c.signature (pyOr c.brief ("No help found..."))) e).fields
      = e.fields ++ l.map (fun c => EmbedField.mk c.signature (pyOr c.brief ("No help found..."))) := by
  induction l generalizing e with
  | nil => simp
  | cons c rest ih =>
      simp only [List.foldl_cons, List.map_cons]
      rw [ih]
      simp [addField]

/-- The fields of a `send_help_embed` render are one per filtered command. -/
theorem sendHelpEmbed_fields (title : String) (description : Option String)
    (cmds : List Cmd) (filt : List Cmd → List Cmd) :
    (sendHelpEmbed title description cmds filt).fields
      = (filt cmds).map (fun c => EmbedField.mk c.signature (pyOr c.brief ("No help found..."))) := by
  unfold sendHelpEmbed
  rw [foldl_addField_fields]
  rfl

/-- A falsy Python string defaults under `pyOr`. -/
theorem pyOr_falsy (o : Option String) (d : String)
    (h : o = none ∨ o = some ("")) : pyOr o d = d := by
  rcases h with h | h <;> subst h <;> rfl

/-- The cooldown window 5.7 truncates to 5 whole seconds. -/
theorem ratFloor_fifty_seven_tenths : ratFloor ((57 : ℚ)/10) = 5 := by
  unfold ratFloor
  rw [Int.floor_eq_iff]
  norm_num

/-- The cooldown window 5.7 rounds to 6 whole seconds under `:.0f`. -/
theorem roundHalfEven_fifty_seven_tenths : roundHalfEven ((57 : ℚ)/10) = 6 := by
  simp only [roundHalfEven, ratFloor_fifty_seven_tenths]
  norm_num

end HelpCog

namespace HelpCog

/-- C1: For every Category-to-Commands mapping passed to `send_bot_help`, the
selector sent with the root panel offers exactly the display names of the
categories with at least one command visible to the invoker followed by a final
"Close" entry, with no duplicate labels (given that the host supplies pairwise
distinct category names, none of them "Close") and "Close" always last; when
zero categories are visible the selector offers only "Close". -/
theorem send_bot_help_offers_visible_categories_then_close
    (botName : String) (mapping : List (Option Cog × List Cmd))
    (filt : List Cmd → List Cmd)
    (hnodup : ((mapping.filter (fun p => !(filt p.2).isEmpty)).map
        (fun p => entryName p.1)).Nodup)
    (hclose : ("Close" : String) ∉ (mapping.filter (fun p => !(filt p.2).isEmpty)).map
        (fun p => entryName p.1)) :
    offeredLabels (sendBotHelp botName mapping filt)
        = (mapping.filter (fun p => !(filt p.2).isEmpty)).map (fun p => entryName p.1)
            ++ [("Close" : String)]
    ∧ (offeredLabels (sendBotHelp botName mapping filt)).Nodup
    ∧ (offeredLabels (sendBotHelp botName mapping filt)).getLast? = some ("Close")
    ∧ (mapping.filter (fun p => !(filt p.2).isEmpty) = [] →
        offeredLabels (sendBotHelp botName mapping filt) = [("Close" : String)]) := by
  have hlabels : offeredLabels (sendBotHelp botName mapping filt)
      = (mapping.filter (fun p => !(filt p.2).isEmpty)).map (fun p => entryName p.1)
          ++ [("Close" : String)] := by
    show (([] ++ buildOptions mapping filt ++ [closeOption]).map SelectOption.label) = _
    rw [buildOptions_eq_filter_map]
    simp [categoryOption, closeOption]
  refine ⟨hlabels, ?_, ?_, ?_⟩
  · rw [hlabels, List.nodup_append]
    refine ⟨hnodup, List.nodup_singleton _, ?_⟩
    intro a ha hb
    rw [List.mem_singleton] at hb
    subst hb
    exact hclose ha
  · rw [hlabels]
    exact getLast_append_single _ _
  · intro hempty
    rw [hlabels, hempty]
    rfl

/-- C1 witness: the sample mapping with a visible "Fun" cog and an "Admin" cog
whose only command is hidden offers exactly the labels "Fun" then "Close". -/
theorem send_bot_help_offers_visible_categories_then_close_witness :
    offeredLabels (sendBotHelp ("Melody") mappingFC filtVisible)
        = (mappingFC.filter (fun p => !(filtVisible p.2).isEmpty)).map
            (fun p => entryName p.1) ++ [("Close" : String)] :=
  (send_bot_help_offers_visible_categories_then_close ("Melody") mappingFC filtVisible
    (by decide) (by decide)).1

/-- C2: For every mapping, `DropdownView` and its inner `Dropdown` are
constructed from the options list before any entry is appended, so the option
collection handed to the select control at construction time is the empty
list, and the final list sent with the message differs from it. -/
theorem dropdown_constructed_with_empty_options
    (botName : String) (mapping : List (Option Cog × List Cmd))
    (filt : List Cmd → List Cmd) :
    (sendBotHelp botName mapping filt).viewOptionsAtConstruction = ([] : List SelectOption)
    ∧ (sendBotHelp botName mapping filt).finalOptions
        ≠ (sendBotHelp botName mapping filt).viewOptionsAtConstruction := by
  refine ⟨rfl, ?_⟩
  show ([] ++ buildOptions mapping filt ++ [closeOption]) ≠ []
  simp

end HelpCog

namespace HelpCog

/-- C3 counterexample: for the "Fun" cog the selector path (`get_help`) renders
the title "Fun - Commands", while the dispatcher category renderer
(`send_cog_help`) renders "Fun Category"; they are different render paths, and
the selector edit leaves the view argument unchanged rather than removing the
control. -/
theorem selector_render_differs_from_dispatcher :
    dropdownCallback [(("Fun" : String), cogFun)] ("Melody") ("Fun")
        = [Action.edit (getHelpEmbed ("Fun") cogFun) ViewArg.unchanged]
    ∧ (getHelpEmbed ("Fun") cogFun).title = some ("Fun - Commands")
    ∧ (sendCogHelp cogFun filtVisible).title = some ("Fun Category")
    ∧ some ("Fun - Commands" : String) ≠ some ("Fun Category" : String)
    ∧ ViewArg.unchanged ≠ ViewArg.remove := by
  refine ⟨?_, rfl, rfl, by decide, by decide⟩
  decide

/-- C3 amended: selecting a category label that names a registered cog edits
the message to the `get_help` panel for exactly that cog — title is the name
followed by " - Commands", description is the raw docstring with no fallback,
one field per non-hidden command valued by the long help — and the edit leaves
the attached view unchanged (the selector is not removed). -/
theorem selector_invokes_get_help_for_selected_cog
    (cogs : List (String × Cog)) (botUserName label : String) (cog : Cog)
    (h : lookupCog cogs label = some cog) :
    dropdownCallback cogs botUserName label
        = [Action.edit (getHelpEmbed label cog) ViewArg.unchanged]
    ∧ (getHelpEmbed label cog).title = some (label ++ (" - Commands"))
    ∧ (getHelpEmbed label cog).description = cog.doc
    ∧ (getHelpEmbed label cog).fields
        = (cog.commands.filter (fun c => !c.hidden)).map
            (fun c => EmbedField.mk (("`") ++ c.name ++ ("`")) (pyStr c.help)) := by
  refine ⟨?_, rfl, rfl, rfl⟩
  unfold dropdownCallback
  rw [h]

/-- C3 amended witness: selecting "Fun" on a bot registering the "Fun" cog
edits to `get_help`'s panel for that cog with the view left unchanged. -/
theorem selector_invokes_get_help_for_selected_cog_witness :
    dropdownCallback [(("Admin" : String), cogAdmin)] ("Melody") ("Admin")
        = [Action.edit (getHelpEmbed ("Admin") cogAdmin) ViewArg.unchanged] :=
  (selector_invokes_get_help_for_selected_cog [(("Admin" : String), cogAdmin)]
    ("Melody") ("Admin") cogAdmin (by decide)).1

/-- C7: when no registered cog is named "Close", selecting "Close" edits the
existing message to the minimal panel — title "<bot name> Help", empty
description, standing footer, no fields — with the view removed. -/
theorem close_selection_renders_minimal_panel
    (cogs : List (String × Cog)) (botUserName : String)
    (h : lookupCog cogs ("Close") = none) :
    dropdownCallback cogs botUserName ("Close")
        = [Action.edit (closeEmbed botUserName) ViewArg.remove]
    ∧ (closeEmbed botUserName).title = some (botUserName ++ (" Help"))
    ∧ (closeEmbed botUserName).description = some ("")
    ∧ (closeEmbed botUserName).footer = some standingFooter
    ∧ (closeEmbed botUserName).fields = [] := by
  refine ⟨?_, rfl, rfl, rfl, rfl⟩
  unfold dropdownCallback
  rw [h]
  rfl

/-- C7 witness: on a bot with no registered cogs, selecting "Close" performs
the minimal-panel edit with the view removed. -/
theorem close_selection_renders_minimal_panel_witness :
    dropdownCallback [] ("Melody") ("Close")
        = [Action.edit (closeEmbed ("Melody")) ViewArg.remove] :=
  (close_selection_renders_minimal_panel [] ("Melody") rfl).1

/-- C8 counterexample: the root render for a mapping whose only entry is the
`None` category offers the label "No Category", yet selecting that offered
label matches no registered cog and is not "Close", so the callback performs
zero edits instead of exactly one. -/
theorem no_category_selection_performs_no_edit :
    offeredLabels (sendBotHelp ("Melody") [(none, [cmdRoll])] (fun l => l))
        = [("No Category" : String), ("Close" : String)]
    ∧ dropdownCallback [] ("Melody") ("No Category") = []
    ∧ ([] : List Action).length ≠ 1 := by
  refine ⟨?_, ?_, by decide⟩ <;> decide

/-- C8 amended: a selection never sends a new message and performs at most one
in-place edit; it performs exactly one edit when the label names a registered
cog or is "Close", and no edit at all otherwise (for example for the offered
"No Category" label, which names no cog). -/
theorem selector_transitions_edit_in_place
    (cogs : List (String × Cog)) (botUserName label : String) :
    (dropdownCallback cogs botUserName label).all isEditAction = true
    ∧ (dropdownCallback cogs botUserName label).length ≤ 1
    ∧ (((lookupCog cogs label).isSome = true ∨ label = ("Close" : String)) →
        (dropdownCallback cogs botUserName label).length = 1)
    ∧ ((lookupCog cogs label = none ∧ label ≠ ("Close" : String)) →
        dropdownCallback cogs botUserName label = []) := by
  cases hl : lookupCog cogs label with
  | some cog =>
      refine ⟨?_, ?_, fun _ => ?_, fun hc => ?_⟩
      · simp [dropdownCallback, hl, isEditAction]
      · simp [dropdownCallback, hl]
      · simp [dropdownCallback, hl]
      · exact absurd hc.1 (by simp [hl])
  | none =>
      by_cases hc : label = ("Close" : String)
      · subst hc
        refine ⟨?_, ?_, fun _ => ?_, fun hcc => absurd rfl hcc.2⟩
        · simp [dropdownCallback, hl, isEditAction]
        · simp [dropdownCallback, hl]
        · simp [dropdownCallback, hl]
      · refine ⟨?_, ?_, fun hor => ?_, fun _ => ?_⟩
        · simp [dropdownCallback, hl, hc, isEditAction]
        · simp [dropdownCallback, hl, hc]
        · rcases hor with hor | hor
          · simp at hor
          · exact absurd hor hc
        · simp [dropdownCallback, hl, hc]

/-- C8 amended witness: selecting the registered label "Fun" performs exactly
one edit. -/
theorem selector_transitions_edit_in_place_witness :
    (dropdownCallback [(("Fun" : String), cogFun)] ("Melody") ("Fun")).length = 1 :=
  (selector_transitions_edit_in_place [(("Fun" : String), cogFun)] ("Melody")
    ("Fun")).2.2.1 (Or.inl (by decide))

end HelpCog

namespace HelpCog

/-- C4 counterexample: a command with neither short nor long help, rendered
through the selector category path (`get_help`), yields a field valued by
`str(command.help)` — the literal "None" — not "No help found...". -/
theorem get_help_field_has_no_fallback :
    (getHelpEmbed ("Mystery") cogMystery).fields
        = [EmbedField.mk ("`mystery`") ("None")]
    ∧ ("None" : String) ≠ ("No help found..." : String) := by
  refine ⟨?_, by decide⟩
  decide

/-- C4 amended: the single-command path, the shared group/category dispatcher
renderer, and its group and category wrappers all substitute "No help found..."
for an empty or absent short help, but the selector category path (`get_help`)
instead renders the long help verbatim through `str`, with no substitution. -/
theorem no_help_found_substitution :
    (∀ (c : Cmd) (cr : Except PyErr Bool) (e : Embed),
        sendCommandHelp c cr = Except.ok e →
        (c.brief = none ∨ c.brief = some ("")) →
        e.description = some ("No help found..."))
    ∧ (∀ (title : String) (description : Option String) (cmds : List Cmd)
          (filt : List Cmd → List Cmd) (c : Cmd),
        c ∈ filt cmds → (c.brief = none ∨ c.brief = some ("")) →
        EmbedField.mk c.signature ("No help found...")
          ∈ (sendHelpEmbed title description cmds filt).fields)
    ∧ (∀ (g : Group) (filt : List Cmd → List Cmd) (c : Cmd),
        c ∈ filt g.commands → (c.brief = none ∨ c.brief = some ("")) →
        EmbedField.mk c.signature ("No help found...") ∈ (sendGroupHelp g filt).fields)
    ∧ (∀ (cog : Cog) (filt : List Cmd → List Cmd) (c : Cmd),
        c ∈ filt cog.commands → (c.brief = none ∨ c.brief = some ("")) →
        EmbedField.mk c.signature ("No help found...") ∈ (sendCogHelp cog filt).fields)
    ∧ (∀ (cogName : String) (cog : Cog) (c : Cmd),
        c ∈ cog.commands → c.hidden = false →
        EmbedField.mk (("`") ++ c.name ++ ("`")) (pyStr c.help)
          ∈ (getHelpEmbed cogName cog).fields) := by
  have hshared : ∀ (title : String) (description : Option String) (cmds : List Cmd)
      (filt : List Cmd → List Cmd) (c : Cmd),
      c ∈ filt cmds → (c.brief = none ∨ c.brief = some ("")) →
      EmbedField.mk c.signature ("No help found...")
        ∈ (sendHelpEmbed title description cmds filt).fields := by
    intro title description cmds filt c hmem hfalsy
    rw [sendHelpEmbed_fields]
    have : EmbedField.mk c.signature ("No help found...")
        = EmbedField.mk c.signature (pyOr c.brief ("No help found...")) := by
      rw [pyOr_falsy c.brief _ hfalsy]
    rw [this]
    exact List.mem_map_of_mem _ hmem
  refine ⟨?_, hshared, ?_, ?_, ?_⟩
  · intro c cr e he hfalsy
    have hdesc : ∀ s, (commandEmbed c s).description
        = some (pyOr c.brief ("No help found...")) := by
      intro s
      unfold commandEmbed
      cases c.cogName <;> cases c.cooldown <;> rfl
    cases cr with
    | ok b =>
        cases b <;>
          · rw [sendCommandHelp] at he
            cases he
            rw [hdesc, pyOr_falsy c.brief _ hfalsy]
    | error err =>
        cases err with
        | commandError =>
            rw [sendCommandHelp] at he
            cases he
            rw [hdesc, pyOr_falsy c.brief _ hfalsy]
        | otherError =>
            rw [sendCommandHelp] at he
            cases he
  · intro g filt c hmem hfalsy
    exact hshared g.signature g.help g.commands filt c hmem hfalsy
  · intro cog filt c hmem hfalsy
    exact hshared _ cog.description cog.commands filt c hmem hfalsy
  · intro cogName cog c hmem hhid
    show EmbedField.mk (("`") ++ c.name ++ ("`")) (pyStr c.help)
        ∈ (cog.commands.filter (fun c => !c.hidden)).map
            (fun c => EmbedField.mk (("`") ++ c.name ++ ("`")) (pyStr c.help))
    refine List.mem_map_of_mem _ ?_
    rw [List.mem_filter]
    exact ⟨hmem, by rw [hhid]; rfl⟩

/-- C4 amended witness: the briefless command rendered by the single-command
path gets the "No help found..." description. -/
theorem no_help_found_substitution_witness :
    (commandEmbed cmdMystery ("Yes")).description = some ("No help found...") :=
  no_help_found_substitution.1 cmdMystery (Except.ok true)
    (commandEmbed cmdMystery ("Yes")) rfl (Or.inl rfl)

/-- C5 counterexample: a cooldown of rate 1 per 5.7 seconds renders as
"1 per 6 seconds" — the `:.0f` format rounds to the nearest second — while
truncating the window to a whole number of seconds would give 5. -/
theorem cooldown_window_rounds_not_truncates :
    fieldValueOf (sendCommandHelp cmdDice (Except.ok true)) ("Cooldown")
        = some ("1 per 6 seconds")
    ∧ ratFloor ((57 : ℚ)/10) = 5
    ∧ ("1 per 6 seconds" : String) ≠ ("1 per 5 seconds" : String) := by
  refine ⟨?_, ratFloor_fifty_seven_tenths, by decide⟩
  show some (toString (1 : ℕ) ++ (" per ") ++ toString (roundHalfEven ((57 : ℚ)/10))
      ++ (" seconds")) = some ("1 per 6 seconds")
  rw [roundHalfEven_fifty_seven_tenths]
  decide

/-- C5 amended: a command with no cooldown policy renders no "Cooldown" field;
a command with a policy of rate R over window W renders the field value
"R per W seconds" with W rounded to the nearest whole second, ties to even. -/
theorem cooldown_field_format (c : Cmd) (cr : Except PyErr Bool) (e : Embed)
    (h : sendCommandHelp c cr = Except.ok e) :
    fieldValue e ("Cooldown") = c.cooldown.map fmtCooldown := by
  have hfld : ∀ s, fieldValue (commandEmbed c s) ("Cooldown")
      = c.cooldown.map fmtCooldown := by
    intro s
    unfold commandEmbed
    cases c.cogName <;> cases c.cooldown <;> rfl
  cases cr with
  | ok b =>
      cases b <;>
        · rw [sendCommandHelp] at h
          cases h
          exact hfld _
  | error err =>
      cases err with
      | commandError =>
          rw [sendCommandHelp] at h
          cases h
          exact hfld _
      | otherError =>
          rw [sendCommandHelp] at h
          cases h

/-- C5 amended witness: the sample cooldown command renders the field value
"1 per 6 seconds", matching rate 1 and window 5.7 rounded to 6. -/
theorem cooldown_field_format_witness :
    fieldValue (commandEmbed cmdDice ("Yes")) ("Cooldown")
        = cmdDice.cooldown.map fmtCooldown :=
  cooldown_field_format cmdDice (Except.ok true) (commandEmbed cmdDice ("Yes")) rfl

/-- C6 counterexample: when the permission predicate raises an exception that
is not a `commands.CommandError`, `send_command_help` does not swallow it — the
error propagates and no panel with a "No" field is produced. -/
theorem usable_other_error_propagates :
    sendCommandHelp cmdRoll (Except.error PyErr.otherError)
        = Except.error PyErr.otherError
    ∧ sendCommandHelp cmdRoll (Except.error PyErr.otherError)
        ≠ Except.ok (commandEmbed cmdRoll ("No")) := by
  refine ⟨rfl, fun h => ?_⟩
  rw [sendCommandHelp] at h
  exact Except.noConfusion h

/-- C6 amended: the "Usable" field is "Yes" exactly when the predicate returns
true without raising; a returned false or a raised `commands.CommandError`
yields "No" (the only exception class the `contextlib.suppress` block
swallows); any other exception propagates out of the render. -/
theorem usable_field_semantics (c : Cmd) (cr : Except PyErr Bool) :
    (cr = Except.ok true →
        fieldValueOf (sendCommandHelp c cr) ("Usable") = some ("Yes"))
    ∧ ((cr = Except.ok false ∨ cr = Except.error PyErr.commandError) →
        fieldValueOf (sendCommandHelp c cr) ("Usable") = some ("No"))
    ∧ (cr = Except.error PyErr.otherError →
        sendCommandHelp c cr = Except.error PyErr.otherError) := by
  have husable : ∀ s, fieldValue (commandEmbed c s) ("Usable") = some s := by
    intro s
    unfold commandEmbed
    cases c.cogName <;> cases c.cooldown <;> rfl
  refine ⟨fun h => ?_, fun h => ?_, fun h => ?_⟩
  · subst h
    exact husable _
  · rcases h with h | h <;>
      · subst h
        exact husable _
  · subst h
    rfl

/-- C6 amended witness: a true predicate answer yields a "Yes" field. -/
theorem usable_field_semantics_witness :
    fieldValueOf (sendCommandHelp cmdRoll (Except.ok true)) ("Usable")
        = some ("Yes") :=
  (usable_field_semantics cmdRoll (Except.ok true)).1 rfl

end HelpCog

namespace HelpCog

/-- C9 counterexample: for a visible "Fun" cog with description "Fun stuff",
the option appended during root rendering is
`SelectOption(label="Fun", value="Fun")` with no description attached — the
computed description-or-default string is discarded, not carried by the
entry. -/
theorem category_option_drops_description :
    (sendBotHelp ("Melody") [(some cogFun, [cmdRoll])] (fun l => l)).finalOptions
        = [SelectOption.mk ("Fun") ("Fun") none,
           SelectOption.mk ("Close") ("Close") none]
    ∧ (SelectOption.mk ("Fun") ("Fun") none).description = none
    ∧ (none : Option String) ≠ some (entryDescription (some cogFun)) := by
  refine ⟨by decide, rfl, by decide⟩

/-- C9 amended: for every mapping, the options list handed to the selector is
exactly one `SelectOption` per category with a visible command, carrying the
display name as both label and value and carrying no description, followed by
the terminal "Close" entry; the description-or-default string the loop computes
is never attached. -/
theorem category_option_carries_name_only
    (botName : String) (mapping : List (Option Cog × List Cmd))
    (filt : List Cmd → List Cmd) :
    (sendBotHelp botName mapping filt).finalOptions
        = (mapping.filter (fun p => !(filt p.2).isEmpty)).map
            (fun p => SelectOption.mk (entryName p.1) (entryName p.1) none)
          ++ [SelectOption.mk ("Close") ("Close") none] := by
  show ([] ++ buildOptions mapping filt ++ [closeOption]) = _
  rw [buildOptions_eq_filter_map]
  rfl

/-- C10: the category panel rendered from a selector selection (`get_help`)
has description equal to the raw cog docstring with no fallback, and exactly
one field per command whose hidden flag is false — inclusion is decided by the
hidden flag alone, with no permission-filter parameter in this path — valued
by the long help body rendered through `str`, while the dispatcher's category
path filters by the invoker-specific permission filter and uses the short help
with a fallback. -/
theorem get_help_includes_nonhidden_by_flag_alone (cogName : String) (cog : Cog) :
    (getHelpEmbed cogName cog).description = cog.doc
    ∧ (getHelpEmbed cogName cog).fields
        = (cog.commands.filter (fun c => !c.hidden)).map
            (fun c => EmbedField.mk (("`") ++ c.name ++ ("`")) (pyStr c.help))
    ∧ (∀ filt : List Cmd → List Cmd,
        (sendCogHelp cog filt).fields
          = (filt cog.commands).map
              (fun c => EmbedField.mk c.signature (pyOr c.brief ("No help found...")))) := by
  refine ⟨rfl, rfl, fun filt => ?_⟩
  exact sendHelpEmbed_fields _ _ _ _

end HelpCog
